import Mathlib

/-!
Shallow embedding of the tilepad-twitch plugin core (src/state.rs, src/action.rs,
src/plugin.rs, src/messages.rs) and proofs of the specification claims.

External collaborators (the twitch HTTP client, serde decoding of JSON values,
the host runtime) are modelled at their boundary: platform calls appear as an
explicit trace of `PlatformOp` values, and the outcome of each external call is
a parameter of the embedded operation. Stateful Rust methods become functions
from the relevant state to (new state, emitted effects, result).
-/

namespace TwitchPlugin

/-! Basic data model, mirroring src/state.rs. -/

/-- Validated user token: bearer token plus the derived broadcaster user id
(the two components of `UserToken` that the plugin reads). -/
structure UserToken where
  access_token : String
  user_id : String
deriving DecidableEq, Repr

/-- The `AccessState` enum from src/state.rs.  Note the source's variant is
spelled `NotAuthenticate` and the `#[default]` variant is `Loading`. -/
inductive AccessState where
  | NotAuthenticate : AccessState
  | Loading : AccessState
  | Authenticated (user_token : UserToken) : AccessState
deriving DecidableEq, Repr

/-- Display subscription entry (`ViewCountDisplay` in src/state.rs): display
identity (the opaque context handle, modelled as a Nat) plus last-seen time.
Time is modelled as a Nat number of seconds. -/
structure ViewCountDisplay where
  ctx : Nat
  last_alive : Nat
deriving DecidableEq, Repr

/-- The mutable fields of `State` from src/state.rs: access state, optional
inspector handle (modelled by presence), the display registry and the cached
viewer count. -/
structure PluginState where
  access_state : AccessState
  inspector : Option Unit
  view_displays : List ViewCountDisplay
  viewers : Nat
deriving DecidableEq, Repr

/-- `State::default()`: access state defaults to `Loading` (the `#[default]`
variant), no inspector, empty registry, viewer cache 0. -/
def PluginState.initial : PluginState :=
  ⟨AccessState.Loading, none, [], 0⟩

/-- Messages to the inspector (src/messages.rs `InspectorMessageOut`). -/
inductive InspectorMessageOut where
  | State (state : String) : InspectorMessageOut
deriving DecidableEq, Repr

/-- `State::update_inspector` as seen by a caller that does NOT hold the
`access_state` mutex (the situation in `attempt_auth` and the deep-link
handler, whose guards are scoped in blocks and dropped before notifying): if
an inspector is registered, lock the state and send the tag for the current
access state; otherwise do nothing.  The return value is the list of messages
sent during the call. -/
def update_inspector (s : PluginState) : List InspectorMessageOut :=
  match s.inspector with
  | some _ =>
    match s.access_state with
    | AccessState.NotAuthenticate => [InspectorMessageOut.State "NOT_AUTHENTICATED"]
    | AccessState.Loading => [InspectorMessageOut.State "LOADING"]
    | AccessState.Authenticated _ => [InspectorMessageOut.State "AUTHENTICATED"]
  | none => []

/-- Outcome of an operation that may re-acquire a non-reentrant mutex the
same task already holds: it either completes with a value, or self-deadlocks
(the lock can never be released, so on the single-threaded runtime the call
never returns). -/
inductive LockOutcome (α : Type) where
  | done (value : α) : LockOutcome α
  | deadlock : LockOutcome α
deriving DecidableEq, Repr

/-- `State::update_inspector` with explicit tracking of whether the caller
already holds the `access_state` mutex.  The source acquires the mutex inside
the inspector-registered branch; `parking_lot::Mutex` is not reentrant, so
locking it while the same task already holds it is a self-deadlock.  With no
inspector registered the branch is not taken and the mutex is never
touched. -/
def update_inspector_with_lock (lock_held : Bool) (s : PluginState) :
    LockOutcome (List InspectorMessageOut) :=
  match s.inspector with
  | some _ =>
    if lock_held then LockOutcome.deadlock
    else
      LockOutcome.done
        (match s.access_state with
          | AccessState.NotAuthenticate => [InspectorMessageOut.State "NOT_AUTHENTICATED"]
          | AccessState.Loading => [InspectorMessageOut.State "LOADING"]
          | AccessState.Authenticated _ => [InspectorMessageOut.State "AUTHENTICATED"])
  | none => LockOutcome.done []

/-- `State::set_logged_out`: the binding of the locked `access_state` guard
has no inner scope, so by temporary lifetime extension the guard is held to
the end of the function; the state is set to `NotAuthenticate` and
`update_inspector` is then called with the mutex still held.  If an inspector
is registered that call re-locks the same non-reentrant mutex and
self-deadlocks, so the function never returns and no message is sent; with no
inspector registered it completes without sending anything. -/
def set_logged_out (s : PluginState) :
    LockOutcome (PluginState × List InspectorMessageOut) :=
  let s2 := { s with access_state := AccessState.NotAuthenticate }
  match update_inspector_with_lock true s2 with
  | LockOutcome.done msgs => LockOutcome.done (s2, msgs)
  | LockOutcome.deadlock => LockOutcome.deadlock

/-- Failure of the external token validation call (`create_user_token`). -/
inductive AuthError where
  | failed_to_create_user_token : AuthError
deriving DecidableEq, Repr

/-- `State::attempt_auth`: set state to `Loading`, notify the inspector, then
run the external validation (its outcome is the `validated` parameter).  On
success set state to `Authenticated` and notify again; on failure the `?`
operator returns the error with the state left as written so far (`Loading`).
Returns (new state, inspector messages sent, result). -/
def attempt_auth (s : PluginState) (validated : Except AuthError UserToken) :
    PluginState × List InspectorMessageOut × Except AuthError Unit :=
  let s1 := { s with access_state := AccessState.Loading }
  let msgs1 := update_inspector s1
  match validated with
  | Except.error e => (s1, msgs1, Except.error e)
  | Except.ok user_token =>
    let s2 := { s1 with access_state := AccessState.Authenticated user_token }
    (s2, msgs1 ++ update_inspector s2, Except.ok ())

/-- `State::get_user_token`: the credential, available iff `Authenticated`. -/
def get_user_token (s : PluginState) : Option UserToken :=
  match s.access_state with
  | AccessState.Authenticated user_token => some user_token
  | _ => none

/-! JSON values and the action decoder, mirroring src/action.rs.  The serde
derived deserializers for the three property structs are modelled by their
documented behaviour: a struct decodes from an object (any other value is a
type error), an `Option` field is `None` when absent or null, unknown fields
are ignored, and a present field of the wrong shape is an error. -/

/-- Untyped JSON value (`serde_json::Value`), numbers restricted to integers
since the only numeric payload field is a commercial length. -/
inductive Json where
  | null : Json
  | bool (b : Bool) : Json
  | num (n : Int) : Json
  | str (s : String) : Json
  | arr (elems : List Json) : Json
  | obj (fields : List (String × Json)) : Json

/-- Look up a field of a JSON object by key (first occurrence). -/
def getField (fields : List (String × Json)) (key : String) : Option Json :=
  (fields.find? (fun f => f.1 = key)).map (fun f => f.2)

/-- Decode error from a derived deserializer (`serde_json::Error`). -/
inductive DecodeErr where
  | invalid_type (message : String) : DecodeErr
deriving DecidableEq, Repr

/-- Decode an `Option<String>` field: absent or null gives `none`, a string
gives `some`, anything else is a type error. -/
def decodeOptString : Option Json → Except DecodeErr (Option String)
  | none => Except.ok none
  | some Json.null => Except.ok none
  | some (Json.str s) => Except.ok (some s)
  | some _ => Except.error (DecodeErr.invalid_type "expected a string")

/-- The `CommercialLength` enum of allowed ad durations (twitch_api type,
closed set 30/60/90/120/150/180 seconds). -/
inductive CommercialLength where
  | Length30 : CommercialLength
  | Length60 : CommercialLength
  | Length90 : CommercialLength
  | Length120 : CommercialLength
  | Length150 : CommercialLength
  | Length180 : CommercialLength
deriving DecidableEq, Repr

/-- Map an integer to the commercial length it denotes, if any. -/
def commercialLengthOfNum (n : Int) : Option CommercialLength :=
  if n = 30 then some CommercialLength.Length30
  else if n = 60 then some CommercialLength.Length60
  else if n = 90 then some CommercialLength.Length90
  else if n = 120 then some CommercialLength.Length120
  else if n = 150 then some CommercialLength.Length150
  else if n = 180 then some CommercialLength.Length180
  else none

/-- Decode an `Option<CommercialLength>` field: absent or null gives `none`,
an integer in the allowed set gives `some`, anything else is an error. -/
def decodeOptCommercialLength : Option Json → Except DecodeErr (Option CommercialLength)
  | none => Except.ok none
  | some Json.null => Except.ok none
  | some (Json.num n) =>
    match commercialLengthOfNum n with
    | some len => Except.ok (some len)
    | none => Except.error (DecodeErr.invalid_type "invalid commercial length")
  | some _ => Except.error (DecodeErr.invalid_type "expected a commercial length")

/-- `SendMessageProperties` from src/action.rs. -/
structure SendMessageProperties where
  message : Option String
deriving DecidableEq, Repr

/-- `MarkerProperties` from src/action.rs. -/
structure MarkerProperties where
  description : Option String
deriving DecidableEq, Repr

/-- `AdBreakProperties` from src/action.rs. -/
structure AdBreakProperties where
  length : Option CommercialLength
deriving DecidableEq, Repr

/-- Derived deserializer for `SendMessageProperties`. -/
def decodeSendMessageProperties : Json → Except DecodeErr SendMessageProperties
  | Json.obj fields => (decodeOptString (getField fields "message")).map SendMessageProperties.mk
  | _ => Except.error (DecodeErr.invalid_type "expected an object")

/-- Derived deserializer for `MarkerProperties`. -/
def decodeMarkerProperties : Json → Except DecodeErr MarkerProperties
  | Json.obj fields => (decodeOptString (getField fields "description")).map MarkerProperties.mk
  | _ => Except.error (DecodeErr.invalid_type "expected an object")

/-- Derived deserializer for `AdBreakProperties`. -/
def decodeAdBreakProperties : Json → Except DecodeErr AdBreakProperties
  | Json.obj fields =>
    (decodeOptCommercialLength (getField fields "length")).map AdBreakProperties.mk
  | _ => Except.error (DecodeErr.invalid_type "expected an object")

/-- The `Action` enum from src/action.rs. -/
inductive Action where
  | SendMessage (props : SendMessageProperties) : Action
  | ClearChat : Action
  | EmoteOnly : Action
  | FollowerOnly : Action
  | SubOnly : Action
  | SlowMode : Action
  | AdBreak (props : AdBreakProperties) : Action
  | Marker (props : MarkerProperties) : Action
  | CreateClip : Action
  | OpenClip : Action
  | ViewerCount : Action
deriving DecidableEq, Repr

/-- `Action::from_action` from src/action.rs: match on the action id, decode
the payload for the three actions that carry properties, return `none` for an
unrecognized id. -/
def Action.from_action (action_id : String) (properties : Json) :
    Option (Except DecodeErr Action) :=
  match action_id with
  | "send_message" => some ((decodeSendMessageProperties properties).map Action.SendMessage)
  | "clear_chat" => some (Except.ok Action.ClearChat)
  | "emote_only" => some (Except.ok Action.EmoteOnly)
  | "follower_only" => some (Except.ok Action.FollowerOnly)
  | "sub_only" => some (Except.ok Action.SubOnly)
  | "slow_mode" => some (Except.ok Action.SlowMode)
  | "ad_break" => some ((decodeAdBreakProperties properties).map Action.AdBreak)
  | "marker" => some ((decodeMarkerProperties properties).map Action.Marker)
  | "create_clip" => some (Except.ok Action.CreateClip)
  | "open_clip" => some (Except.ok Action.OpenClip)
  | "viewer_count" => some (Except.ok Action.ViewerCount)
  | _ => none

/-- The identifiers `Action::from_action` recognizes, in source order. -/
def recognizedActionIds : List String :=
  ["send_message", "clear_chat", "emote_only", "follower_only", "sub_only",
   "slow_mode", "ad_break", "marker", "create_clip", "open_clip", "viewer_count"]

/-! Command executor operations from src/state.rs.  Each operation returns the
ordered trace of platform calls it issued together with its result.  Responses
of external calls are parameters (`PlatformEnv`). -/

/-- Current chat settings, as returned by the GET chat settings endpoint
(the fields the plugin reads). -/
structure ChatSettings where
  emote_mode : Bool
  follower_mode : Bool
  slow_mode : Bool
  subscriber_mode : Bool
  unique_chat_mode : Bool
deriving DecidableEq, Repr

/-- `UpdateChatSettingsBody`: every field optional; an unset field is left
unchanged by the PATCH.  `UpdateChatSettingsBody::default()` has every field
`none`. -/
structure UpdateChatSettingsBody where
  emote_mode : Option Bool
  follower_mode : Option Bool
  follower_mode_duration : Option Nat
  non_moderator_chat_delay : Option Bool
  non_moderator_chat_delay_duration : Option Nat
  slow_mode : Option Bool
  slow_mode_wait_time : Option Nat
  subscriber_mode : Option Bool
  unique_chat_mode : Option Bool
deriving DecidableEq, Repr

/-- `UpdateChatSettingsBody::default()`: all fields unset. -/
def UpdateChatSettingsBody.default : UpdateChatSettingsBody :=
  ⟨none, none, none, none, none, none, none, none, none⟩

/-- One externally visible platform call, with the request data the plugin
puts into it. -/
inductive PlatformOp where
  | sendChatMessage (broadcaster_id sender_id : String) (message : String) : PlatformOp
  | deleteChatMessages (broadcaster_id moderator_id : String) : PlatformOp
  | createClip (broadcaster_id : String) : PlatformOp
  | createStreamMarker (user_id : String) (description : String) : PlatformOp
  | getChatSettings (broadcaster_id : String) : PlatformOp
  | updateChatSettings (broadcaster_id moderator_id : String)
      (body : UpdateChatSettingsBody) : PlatformOp
  | startCommercial (broadcaster_id : String) (length : CommercialLength) : PlatformOp
  | getStreams (user_id : String) : PlatformOp
deriving DecidableEq, Repr

/-- Failure of a command executor operation: missing credential (the
`context("not authenticated")` path) or a propagated platform error. -/
inductive OpError where
  | not_authenticated : OpError
  | platform (message : String) : OpError
deriving DecidableEq, Repr

/-- Responses of the external platform for one dispatched interaction:
the outcome of each chat send (by message), of the GET chat settings call and
of the PATCH chat settings call. -/
structure PlatformEnv where
  send : String → Except String Unit
  settings : Except String ChatSettings
  patch : Except String Unit

/-- `State::send_chat_message`: require a credential, then issue one send
chat message call with broadcaster and sender both the token's user id. -/
def send_chat_message (s : PluginState) (env : PlatformEnv) (message : String) :
    List PlatformOp × Except OpError Unit :=
  match get_user_token s with
  | none => ([], Except.error OpError.not_authenticated)
  | some token =>
    let op := PlatformOp.sendChatMessage token.user_id token.user_id message
    match env.send message with
    | Except.ok _ => ([op], Except.ok ())
    | Except.error e => ([op], Except.error (OpError.platform e))

/-- The chunking loop of `State::send_chat_message_chunked`: repeatedly take
the next 500 characters, stop when the chunk is empty, otherwise send it and
await the result before continuing (a failed send aborts the loop via `?`). -/
def send_chunks (s : PluginState) (env : PlatformEnv) (chars : List Char) :
    List PlatformOp × Except OpError Unit :=
  if h : chars.take 500 = [] then ([], Except.ok ())
  else
    let message := String.mk (chars.take 500)
    let r := send_chat_message s env message
    match r.2 with
    | Except.error e => (r.1, Except.error e)
    | Except.ok _ =>
      let rest := send_chunks s env (chars.drop 500)
      (r.1 ++ rest.1, rest.2)
termination_by chars.length
decreasing_by
  simp only [List.take_eq_nil_iff] at h
  push_neg at h
  have hne : chars ≠ [] := h.2
  have hpos : 0 < chars.length := List.length_pos.mpr hne
  simp [List.length_drop]
  omega

/-- `State::send_chat_message_chunked`: if the byte length (Rust `str::len`)
of the message is below 500, send it in one call; otherwise run the chunking
loop over the message's characters.  The byte length of the message is the
sum of the UTF-8 sizes of its characters. -/
def send_chat_message_chunked (s : PluginState) (env : PlatformEnv)
    (message : String) : List PlatformOp × Except OpError Unit :=
  if (message.data.map Char.utf8Size).sum < 500 then
    let r := send_chat_message s env message
    (r.1, r.2)
  else
    send_chunks s env message.data

/-- `State::clear_chat`: require a credential, then issue one delete chat
messages call. -/
def clear_chat (s : PluginState) : List PlatformOp × Except OpError Unit :=
  match get_user_token s with
  | none => ([], Except.error OpError.not_authenticated)
  | some token =>
    ([PlatformOp.deleteChatMessages token.user_id token.user_id], Except.ok ())

/-- `State::create_clip`: require a credential, then issue one create clip
call. -/
def create_clip (s : PluginState) : List PlatformOp × Except OpError Unit :=
  match get_user_token s with
  | none => ([], Except.error OpError.not_authenticated)
  | some token => ([PlatformOp.createClip token.user_id], Except.ok ())

/-- `State::create_marker`: require a credential, then issue one create
stream marker call with the given text. -/
def create_marker (s : PluginState) (text : String) :
    List PlatformOp × Except OpError Unit :=
  match get_user_token s with
  | none => ([], Except.error OpError.not_authenticated)
  | some token => ([PlatformOp.createStreamMarker token.user_id text], Except.ok ())

/-- `State::get_chat_settings`: require a credential, then issue one GET chat
settings call and propagate its outcome. -/
def get_chat_settings (s : PluginState) (env : PlatformEnv) :
    List PlatformOp × Except OpError ChatSettings :=
  match get_user_token s with
  | none => ([], Except.error OpError.not_authenticated)
  | some token =>
    match env.settings with
    | Except.ok cs => ([PlatformOp.getChatSettings token.user_id], Except.ok cs)
    | Except.error e =>
      ([PlatformOp.getChatSettings token.user_id], Except.error (OpError.platform e))

/-- `State::toggle_slow_mode`: fetch current settings, re-obtain the token,
then PATCH a default body with only `slow_mode` set to the negation. -/
def toggle_slow_mode (s : PluginState) (env : PlatformEnv) :
    List PlatformOp × Except OpError Unit :=
  let g := get_chat_settings s env
  match g.2 with
  | Except.error e => (g.1, Except.error e)
  | Except.ok settings =>
    match get_user_token s with
    | none => (g.1, Except.error OpError.not_authenticated)
    | some token =>
      let body := { UpdateChatSettingsBody.default with slow_mode := some (!settings.slow_mode) }
      let ops := g.1 ++ [PlatformOp.updateChatSettings token.user_id token.user_id body]
      match env.patch with
      | Except.ok _ => (ops, Except.ok ())
      | Except.error e => (ops, Except.error (OpError.platform e))

/-- `State::toggle_emote_only`: same shape, toggling `emote_mode`. -/
def toggle_emote_only (s : PluginState) (env : PlatformEnv) :
    List PlatformOp × Except OpError Unit :=
  let g := get_chat_settings s env
  match g.2 with
  | Except.error e => (g.1, Except.error e)
  | Except.ok settings =>
    match get_user_token s with
    | none => (g.1, Except.error OpError.not_authenticated)
    | some token =>
      let body := { UpdateChatSettingsBody.default with emote_mode := some (!settings.emote_mode) }
      let ops := g.1 ++ [PlatformOp.updateChatSettings token.user_id token.user_id body]
      match env.patch with
      | Except.ok _ => (ops, Except.ok ())
      | Except.error e => (ops, Except.error (OpError.platform e))

/-- `State::toggle_follower_only`: same shape, toggling `follower_mode`. -/
def toggle_follower_only (s : PluginState) (env : PlatformEnv) :
    List PlatformOp × Except OpError Unit :=
  let g := get_chat_settings s env
  match g.2 with
  | Except.error e => (g.1, Except.error e)
  | Except.ok settings =>
    match get_user_token s with
    | none => (g.1, Except.error OpError.not_authenticated)
    | some token =>
      let body :=
        { UpdateChatSettingsBody.default with follower_mode := some (!settings.follower_mode) }
      let ops := g.1 ++ [PlatformOp.updateChatSettings token.user_id token.user_id body]
      match env.patch with
      | Except.ok _ => (ops, Except.ok ())
      | Except.error e => (ops, Except.error (OpError.platform e))

/-- `State::toggle_sub_only`: same shape, toggling `subscriber_mode`. -/
def toggle_sub_only (s : PluginState) (env : PlatformEnv) :
    List PlatformOp × Except OpError Unit :=
  let g := get_chat_settings s env
  match g.2 with
  | Except.error e => (g.1, Except.error e)
  | Except.ok settings =>
    match get_user_token s with
    | none => (g.1, Except.error OpError.not_authenticated)
    | some token =>
      let body :=
        { UpdateChatSettingsBody.default with subscriber_mode := some (!settings.subscriber_mode) }
      let ops := g.1 ++ [PlatformOp.updateChatSettings token.user_id token.user_id body]
      match env.patch with
      | Except.ok _ => (ops, Except.ok ())
      | Except.error e => (ops, Except.error (OpError.platform e))

/-- Modelled from the spec: `State::start_comercial` is called by the tile
dispatcher in src/plugin.rs but its definition is missing from the sources
under src.  Per the spec, the command executor obtains a credential, failing
with not-authenticated when it is absent, and otherwise issues exactly one
start-commercial platform call with the given duration. -/
def start_comercial (s : PluginState) (length : CommercialLength) :
    List PlatformOp × Except OpError Unit :=
  match get_user_token s with
  | none => ([], Except.error OpError.not_authenticated)
  | some token => ([PlatformOp.startCommercial token.user_id length], Except.ok ())

/-! Viewer-count scheduler, mirroring `get_view_count`, `get_active_displays`,
`push_active_display`, `current_view_count` and one iteration of
`run_view_count_update` from src/state.rs.  Time is a Nat number of seconds;
`Instant::duration_since` is truncated subtraction (an `Instant` never lies in
the future of `now`). -/

/-- `State::get_view_count`: without a credential, return `Ok(None)` without
any platform call; otherwise issue one get-streams query whose outcome is the
`env` parameter (`Ok(Some count)` for a live stream, `Ok(None)` when offline,
error on a failed request). -/
def get_view_count (s : PluginState) (env : Except String (Option Nat)) :
    List PlatformOp × Except OpError (Option Nat) :=
  match get_user_token s with
  | none => ([], Except.ok none)
  | some token =>
    match env with
    | Except.ok v => ([PlatformOp.getStreams token.user_id], Except.ok v)
    | Except.error e => ([PlatformOp.getStreams token.user_id], Except.error (OpError.platform e))

/-- `State::get_active_displays`: retain displays whose last-seen age is
strictly below 5 seconds and return (retained registry, its length). -/
def get_active_displays (now : Nat) (displays : List ViewCountDisplay) :
    List ViewCountDisplay × Nat :=
  let kept := displays.filter (fun d => now - d.last_alive < 5)
  (kept, kept.length)

/-- `State::push_active_display`: refresh the `last_alive` of the first entry
with the same context handle, or append a fresh entry at the end. -/
def push_active_display (now : Nat) (c : Nat) :
    List ViewCountDisplay → List ViewCountDisplay
  | [] => [⟨c, now⟩]
  | d :: ds =>
    if d.ctx = c then ⟨d.ctx, now⟩ :: ds else d :: push_active_display now c ds

/-- `State::current_view_count`: read the cached viewer count. -/
def current_view_count (s : PluginState) : Nat :=
  s.viewers

/-- One iteration of the `run_view_count_update` loop: purge stale displays,
and only if at least one live display remains run `get_view_count`,
overwriting the cache only when it yields `Some` count.  Returns the new state
and the platform calls of this tick. -/
def run_view_count_tick (now : Nat) (s : PluginState)
    (env : Except String (Option Nat)) : PluginState × List PlatformOp :=
  let purged := (get_active_displays now s.view_displays).1
  let active := (get_active_displays now s.view_displays).2
  let s1 := { s with view_displays := purged }
  if active > 0 then
    let r := get_view_count s1 env
    match r.2 with
    | Except.ok (some v) => ({ s1 with viewers := v }, r.1)
    | Except.ok none => (s1, r.1)
    | Except.error _ => (s1, r.1)
  else (s1, [])

/-- An event in a scheduler run: either a scheduler tick (with the platform
response for its poll, should one happen) or a display asking for the view
count at some time, which refreshes its subscription. -/
inductive SchedulerEvent where
  | tick (now : Nat) (env : Except String (Option Nat)) : SchedulerEvent
  | refresh (now : Nat) (c : Nat) : SchedulerEvent

/-- Run a sequence of scheduler events, accumulating the platform calls made
by the ticks. -/
def scheduler_run (s : PluginState) : List SchedulerEvent → PluginState × List PlatformOp
  | [] => (s, [])
  | SchedulerEvent.tick now env :: rest =>
    let r := run_view_count_tick now s env
    let rr := scheduler_run r.1 rest
    (rr.1, r.2 ++ rr.2)
  | SchedulerEvent.refresh now c :: rest =>
    scheduler_run { s with view_displays := push_active_display now c s.view_displays } rest

/-! Dispatch (`on_tile_clicked`) and the deep-link handler from
src/plugin.rs. -/

/-- `ExamplePlugin::on_tile_clicked`: decode the action; an unknown id or a
decode error only logs and returns.  Otherwise run the operation for the
action; the returned list is the trace of platform calls made by the spawned
task (errors are logged and swallowed).  Note the SendMessage arm returns
without any call when the message property is absent and calls
`send_chat_message` (not the chunked variant) otherwise. -/
def on_tile_clicked (s : PluginState) (env : PlatformEnv)
    (action_id : String) (properties : Json) : List PlatformOp :=
  match Action.from_action action_id properties with
  | none => []
  | some (Except.error _) => []
  | some (Except.ok action) =>
    match action with
    | Action.SendMessage props =>
      match props.message with
      | none => []
      | some message => (send_chat_message s env message).1
    | Action.ClearChat => (clear_chat s).1
    | Action.EmoteOnly => (toggle_emote_only s env).1
    | Action.FollowerOnly => (toggle_follower_only s env).1
    | Action.SubOnly => (toggle_sub_only s env).1
    | Action.SlowMode => (toggle_slow_mode s env).1
    | Action.AdBreak props =>
      (start_comercial s (props.length.getD CommercialLength.Length30)).1
    | Action.Marker props => (create_marker s (props.description.getD "")).1
    | Action.CreateClip => (create_clip s).1
    | Action.OpenClip => []
    | Action.ViewerCount => []

/-- The parsed deep-link fragment (`DeepLinkFragment` in src/plugin.rs). -/
structure DeepLinkFragment where
  access_token : String
  scope : String
deriving DecidableEq, Repr

/-- A call from the core to the host: persist the properties blob.  The
payload is `none` for a cleared credential or the stored (access token,
scopes) pair. -/
inductive HostEffect where
  | set_properties (access : Option (String × List String)) : HostEffect
deriving DecidableEq, Repr

/-- `ExamplePlugin::on_deep_link`: require a fragment, parse it (the external
urlencoded parser is the `parse` parameter), split the scope string on a
colon, attempt authentication, and only on success persist the credentials
via `set_properties`.  Returns (new state, inspector messages, host effects). -/
def on_deep_link (s : PluginState) (fragment : Option String)
    (parse : String → Option DeepLinkFragment)
    (validated : Except AuthError UserToken) :
    PluginState × List InspectorMessageOut × List HostEffect :=
  match fragment with
  | none => (s, [], [])
  | some raw =>
    match parse raw with
    | none => (s, [], [])
    | some f =>
      let scopes := f.scope.splitOn ":"
      let r := attempt_auth s validated
      match r.2.2 with
      | Except.error _ => (r.1, r.2.1, [])
      | Except.ok _ =>
        (r.1, r.2.1, [HostEffect.set_properties (some (f.access_token, scopes))])

/-! Shared concrete fixtures used by witnesses and evaluation theorems. -/

/-- A concrete validated token. -/
def sampleToken : UserToken := ⟨"token", "uid"⟩

/-- A concrete authenticated plugin state. -/
def authState : PluginState := ⟨AccessState.Authenticated sampleToken, none, [], 0⟩

/-- Concrete chat settings with every mode off. -/
def sampleSettings : ChatSettings := ⟨false, false, false, false, false⟩

/-- A platform environment where every external call succeeds. -/
def okEnv : PlatformEnv := ⟨fun _ => Except.ok (), Except.ok sampleSettings, Except.ok ()⟩

/-! Claim theorems. -/

/-- C2: if the external token validation fails, `attempt_auth` returns the
failure to its caller and the access state remains `Loading` (it is neither
reverted to not-authenticated nor advanced to authenticated). -/
theorem attempt_auth_failure_stays_loading (s : PluginState) (e : AuthError) :
    (attempt_auth s (Except.error e)).1.access_state = AccessState.Loading ∧
    (attempt_auth s (Except.error e)).2.2 = Except.error e := by
  simp [attempt_auth]

/-- Witness for C2 at a concrete state and error. -/
theorem attempt_auth_failure_stays_loading_witness :
    (attempt_auth PluginState.initial
        (Except.error AuthError.failed_to_create_user_token)).1.access_state =
      AccessState.Loading :=
  (attempt_auth_failure_stays_loading PluginState.initial
    AuthError.failed_to_create_user_token).1

/-- C3 (code-bug evidence): with an inspector registered, `set_logged_out`
self-deadlocks — the `access_state` mutex guard is still held when
`update_inspector` re-locks the same non-reentrant mutex — so the call never
completes and the NOT_AUTHENTICATED notification the claim asserts is never
sent; with no inspector registered the call completes, sets the state to
`NotAuthenticate`, and sends no notification. -/
theorem set_logged_out_self_deadlocks :
    set_logged_out ⟨AccessState.Loading, some (), [], 0⟩ = LockOutcome.deadlock ∧
    set_logged_out ⟨AccessState.Loading, none, [], 0⟩ =
      LockOutcome.done (⟨AccessState.NotAuthenticate, none, [], 0⟩, []) :=
  ⟨rfl, rfl⟩

/-- C7: `get_user_token` yields the credential iff the current state is
`Authenticated`, and every command-executor operation that fails to obtain a
credential fails with the not-authenticated error while issuing no platform
call (an empty trace). -/
theorem get_credential_iff_authenticated :
    (∀ s t, get_user_token s = some t ↔ s.access_state = AccessState.Authenticated t) ∧
    (∀ s (env : PlatformEnv) (message text : String) (len : CommercialLength),
      get_user_token s = none →
      send_chat_message s env message = ([], Except.error OpError.not_authenticated) ∧
      send_chat_message_chunked s env message = ([], Except.error OpError.not_authenticated) ∧
      clear_chat s = ([], Except.error OpError.not_authenticated) ∧
      create_clip s = ([], Except.error OpError.not_authenticated) ∧
      create_marker s text = ([], Except.error OpError.not_authenticated) ∧
      get_chat_settings s env = ([], Except.error OpError.not_authenticated) ∧
      toggle_slow_mode s env = ([], Except.error OpError.not_authenticated) ∧
      toggle_emote_only s env = ([], Except.error OpError.not_authenticated) ∧
      toggle_follower_only s env = ([], Except.error OpError.not_authenticated) ∧
      toggle_sub_only s env = ([], Except.error OpError.not_authenticated) ∧
      start_comercial s len = ([], Except.error OpError.not_authenticated)) := by
  constructor
  · intro s t
    cases h : s.access_state <;> simp [get_user_token, h]
  · intro s env message text len hnone
    have hchunk :
        send_chat_message_chunked s env message =
          ([], Except.error OpError.not_authenticated) := by
      by_cases hlen : (message.data.map Char.utf8Size).sum < 500
      · simp [send_chat_message_chunked, hlen, send_chat_message, hnone]
      · have hne : message.data ≠ [] := by
          intro hmt
          simp [hmt] at hlen
        rw [send_chat_message_chunked]
        simp only [hlen, if_false]
        rw [send_chunks]
        simp [List.take_eq_nil_iff, hne, send_chat_message, hnone]
    refine ⟨by simp [send_chat_message, hnone], hchunk, ?_, ?_, ?_, ?_, ?_, ?_, ?_, ?_, ?_⟩
    · simp [clear_chat, hnone]
    · simp [create_clip, hnone]
    · simp [create_marker, hnone]
    · simp [get_chat_settings, hnone]
    · simp [toggle_slow_mode, get_chat_settings, hnone]
    · simp [toggle_emote_only, get_chat_settings, hnone]
    · simp [toggle_follower_only, get_chat_settings, hnone]
    · simp [toggle_sub_only, get_chat_settings, hnone]
    · simp [start_comercial, hnone]

/-- Witness for C7 at the initial (Loading) state. -/
theorem get_credential_iff_authenticated_witness :
    get_user_token PluginState.initial = none ∧
    clear_chat PluginState.initial = ([], Except.error OpError.not_authenticated) := by
  have h := get_credential_iff_authenticated
  have hnone : get_user_token PluginState.initial = none := by
    simp [get_user_token, PluginState.initial]
  exact ⟨hnone, (h.2 PluginState.initial okEnv "" "" CommercialLength.Length30 hnone).2.2.1⟩

/-! Structural-shape predicates for C5, stated independently of the decoders:
what each recognized action expects of its payload. -/

/-- Shape of a declared-optional string field: absent, null, or a string. -/
def optStringFieldOk : Option Json → Bool
  | none => true
  | some Json.null => true
  | some (Json.str _) => true
  | some _ => false

/-- Shape of a declared-optional commercial length field: absent, null, or an
integer denoting an allowed duration. -/
def optCommercialLengthFieldOk : Option Json → Bool
  | none => true
  | some Json.null => true
  | some (Json.num n) => (commercialLengthOfNum n).isSome
  | some _ => false

/-- The expected payload shape of each recognized action: the three actions
with properties require an object whose declared field has the right shape;
every other recognized action accepts any payload. -/
def payloadMatchesShape (action_id : String) (p : Json) : Bool :=
  if action_id = "send_message" then
    match p with
    | Json.obj fields => optStringFieldOk (getField fields "message")
    | _ => false
  else if action_id = "marker" then
    match p with
    | Json.obj fields => optStringFieldOk (getField fields "description")
    | _ => false
  else if action_id = "ad_break" then
    match p with
    | Json.obj fields => optCommercialLengthFieldOk (getField fields "length")
    | _ => false
  else true

theorem except_map_eq_error {α β γ : Type} (f : α → β) (x : Except γ α) (e : γ) :
    x.map f = Except.error e ↔ x = Except.error e := by
  cases x <;> simp [Except.map]

theorem decodeOptString_error_iff (o : Option Json) :
    (∃ e, decodeOptString o = Except.error e) ↔ optStringFieldOk o = false := by
  cases o with
  | none => simp [decodeOptString, optStringFieldOk]
  | some j => cases j <;> simp [decodeOptString, optStringFieldOk]

theorem decodeOptCommercialLength_error_iff (o : Option Json) :
    (∃ e, decodeOptCommercialLength o = Except.error e) ↔
      optCommercialLengthFieldOk o = false := by
  cases o with
  | none => simp [decodeOptCommercialLength, optCommercialLengthFieldOk]
  | some j =>
    cases j with
    | num n =>
      cases h : commercialLengthOfNum n <;>
        simp [decodeOptCommercialLength, optCommercialLengthFieldOk, h]
    | _ => simp [decodeOptCommercialLength, optCommercialLengthFieldOk]

theorem decodeSendMessageProperties_error_iff (p : Json) :
    (∃ e, decodeSendMessageProperties p = Except.error e) ↔
      payloadMatchesShape "send_message" p = false := by
  cases p <;>
    simp [decodeSendMessageProperties, payloadMatchesShape, except_map_eq_error,
      decodeOptString_error_iff]

theorem decodeMarkerProperties_error_iff (p : Json) :
    (∃ e, decodeMarkerProperties p = Except.error e) ↔
      payloadMatchesShape "marker" p = false := by
  cases p <;>
    simp [decodeMarkerProperties, payloadMatchesShape, except_map_eq_error,
      decodeOptString_error_iff]

theorem decodeAdBreakProperties_error_iff (p : Json) :
    (∃ e, decodeAdBreakProperties p = Except.error e) ↔
      payloadMatchesShape "ad_break" p = false := by
  cases p <;>
    simp [decodeAdBreakProperties, payloadMatchesShape, except_map_eq_error,
      decodeOptCommercialLength_error_iff]

/-- C5: `Action::from_action` returns `none` exactly for unrecognized
identifiers, returns a decode error exactly when the identifier is recognized
but the payload fails structural validation against that action's expected
shape, and is a deterministic function of its two inputs (it is embedded as a
pure total function, so it reads and writes no state). -/
theorem from_action_decode_classification (action_id : String) (p : Json) :
    (Action.from_action action_id p = none ↔ action_id ∉ recognizedActionIds) ∧
    ((∃ e, Action.from_action action_id p = some (Except.error e)) ↔
      (action_id ∈ recognizedActionIds ∧ payloadMatchesShape action_id p = false)) ∧
    (∀ q, q = p → Action.from_action action_id q = Action.from_action action_id p) := by
  refine ⟨?_, ?_, ?_⟩
  · unfold Action.from_action
    split <;> simp_all [recognizedActionIds]
  · unfold Action.from_action
    split <;>
      simp_all [recognizedActionIds, except_map_eq_error,
        decodeSendMessageProperties_error_iff, decodeMarkerProperties_error_iff,
        decodeAdBreakProperties_error_iff, payloadMatchesShape]
  · intro q hq
    rw [hq]

/-- Witness for C5: at a concrete unrecognized identifier the decoder yields
no match, and at a recognized identifier with a malformed payload it yields a
decode error. -/
theorem from_action_decode_classification_witness :
    Action.from_action "mystery" Json.null = none ∧
    ((∃ e, Action.from_action "marker" (Json.num 3) = some (Except.error e)) ∧
      Action.from_action "marker" (Json.num 3) ≠ none) := by
  refine ⟨?_, ?_, ?_⟩
  · exact (from_action_decode_classification "mystery" Json.null).1.mpr (by decide)
  · exact (from_action_decode_classification "marker" (Json.num 3)).2.1.mpr
      (by refine ⟨by decide, by decide⟩)
  · have h := (from_action_decode_classification "marker" (Json.num 3)).1
    intro hn
    have := h.mp hn
    simp [recognizedActionIds] at this

/-! Scheduler lemmas shared by the claims about the viewer-count loop. -/

theorem run_view_count_tick_displays (now : Nat) (s : PluginState)
    (env : Except String (Option Nat)) :
    (run_view_count_tick now s env).1.view_displays =
      s.view_displays.filter (fun d => now - d.last_alive < 5) := by
  simp only [run_view_count_tick, get_view_count, get_active_displays]
  split
  · split <;> simp
  · simp

theorem run_view_count_tick_empty_displays (now : Nat) (s : PluginState)
    (env : Except String (Option Nat)) (h : s.view_displays = []) :
    (run_view_count_tick now s env).1 = { s with view_displays := [] } ∧
    (run_view_count_tick now s env).2 = [] := by
  simp [run_view_count_tick, get_active_displays, h]

theorem scheduler_run_ticks_only_no_ops
    (ticks : List (Nat × Except String (Option Nat))) :
    ∀ s : PluginState, s.view_displays = [] →
      (scheduler_run s (ticks.map (fun p => SchedulerEvent.tick p.1 p.2))).2 = [] ∧
      (scheduler_run s (ticks.map (fun p => SchedulerEvent.tick p.1 p.2))).1.view_displays
        = [] ∧
      (scheduler_run s (ticks.map (fun p => SchedulerEvent.tick p.1 p.2))).1.viewers
        = s.viewers := by
  induction ticks with
  | nil =>
    intro s h
    simp [scheduler_run, h]
  | cons hd tl ih =>
    intro s h
    have ht := run_view_count_tick_empty_displays hd.1 s hd.2 h
    have h1 : (run_view_count_tick hd.1 s hd.2).1.view_displays = [] := by
      rw [ht.1]
    have h2 : (run_view_count_tick hd.1 s hd.2).1.viewers = s.viewers := by
      rw [ht.1]
    have hrec := ih (run_view_count_tick hd.1 s hd.2).1 h1
    simp [scheduler_run, ht.2, hrec.1, hrec.2.1, hrec.2.2, h2]

/-- C4: on every scheduler tick, subscriptions of age at least 5 seconds are
purged first (the registry after the tick is exactly the subscriptions of age
below 5); if no live subscription remains the tick issues no platform call;
with an empty registry no platform call is made over any number of
consecutive ticks; a subscription whose age at the tick is at most 3 seconds
(as when it is refreshed every 3 seconds) is never purged and, when
authenticated, the tick issues its one poll call; and a single subscription
left idle for 6 seconds is expired, so no call is made from the following
tick onwards. -/
theorem viewer_scheduler_demand_gate :
    (∀ now s env d, d ∈ (run_view_count_tick now s env).1.view_displays ↔
      (d ∈ s.view_displays ∧ now - d.last_alive < 5)) ∧
    (∀ now s env, (get_active_displays now s.view_displays).2 = 0 →
      (run_view_count_tick now s env).2 = []) ∧
    (∀ (s : PluginState) (ticks : List (Nat × Except String (Option Nat))),
      s.view_displays = [] →
      (scheduler_run s (ticks.map (fun p => SchedulerEvent.tick p.1 p.2))).2 = []) ∧
    (∀ now s env d t, d ∈ s.view_displays → now - d.last_alive ≤ 3 →
      s.access_state = AccessState.Authenticated t →
      d ∈ (run_view_count_tick now s env).1.view_displays ∧
      (run_view_count_tick now s env).2.length = 1) ∧
    (∀ (s : PluginState) (c r now : Nat) (env : Except String (Option Nat))
      (ticks : List (Nat × Except String (Option Nat))), s.view_displays = [⟨c, r⟩] →
      r + 6 ≤ now →
      (scheduler_run s
          (SchedulerEvent.tick now env ::
            ticks.map (fun p => SchedulerEvent.tick p.1 p.2))).2 = []) := by
  refine ⟨?_, ?_, ?_, ?_, ?_⟩
  · intro now s env d
    rw [run_view_count_tick_displays]
    simp [List.mem_filter]
  · intro now s env h
    simp only [get_active_displays] at h
    simp [run_view_count_tick, get_active_displays, h]
  · intro s ticks h
    exact (scheduler_run_ticks_only_no_ops ticks s h).1
  · intro now s env d t hmem hage ha
    have hkeep : now - d.last_alive < 5 := by omega
    have hmem2 : d ∈ s.view_displays.filter (fun d => now - d.last_alive < 5) := by
      simp [List.mem_filter, hmem, hkeep]
    constructor
    · rw [run_view_count_tick_displays]
      exact hmem2
    · have hpos :
          0 < (s.view_displays.filter (fun d => now - d.last_alive < 5)).length :=
        List.length_pos.mpr (List.ne_nil_of_mem hmem2)
      have htok :
          get_user_token
              { s with view_displays :=
                  s.view_displays.filter (fun d => now - d.last_alive < 5) } =
            some t := by
        simp [get_user_token, ha]
      cases env with
      | error e =>
        simp [run_view_count_tick, get_active_displays, hpos, get_view_count, htok]
      | ok v =>
        cases v <;>
          simp [run_view_count_tick, get_active_displays, hpos, get_view_count, htok]
  · intro s c r now env ticks hdisp hidle
    have hstale : ¬(now - r < 5) := by omega
    have hfirst := run_view_count_tick_empty_displays now s env
    have hpurged :
        (run_view_count_tick now s env).1.view_displays = [] := by
      rw [run_view_count_tick_displays, hdisp]
      simp [hstale]
    have hops : (run_view_count_tick now s env).2 = [] := by
      simp [run_view_count_tick, get_active_displays, hdisp, hstale]
    have hrec := (scheduler_run_ticks_only_no_ops ticks
      (run_view_count_tick now s env).1 hpurged).1
    simp [scheduler_run, hops, hrec]

/-- Witness for C4: a run of two ticks from the initial state (empty display
registry) issues no platform calls, and a tick purges a concrete stale
subscription. -/
theorem viewer_scheduler_demand_gate_witness :
    (scheduler_run PluginState.initial
        ([(0, Except.ok (some 3)), (5, Except.error "boom")].map
          (fun p => SchedulerEvent.tick p.1 p.2))).2 = [] ∧
    (scheduler_run ⟨AccessState.Authenticated sampleToken, none, [⟨1, 0⟩], 0⟩
        (SchedulerEvent.tick 6 (Except.ok (some 3)) ::
          ([(11, Except.ok (some 4))].map (fun p => SchedulerEvent.tick p.1 p.2)))).2
      = [] := by
  constructor
  · exact viewer_scheduler_demand_gate.2.2.1 PluginState.initial
      [(0, Except.ok (some 3)), (5, Except.error "boom")] rfl
  · exact viewer_scheduler_demand_gate.2.2.2.2
      ⟨AccessState.Authenticated sampleToken, none, [⟨1, 0⟩], 0⟩ 1 0 6
      (Except.ok (some 3)) [(11, Except.ok (some 4))] rfl (by omega)

theorem run_view_count_tick_viewers_unchanged (now : Nat) (s : PluginState)
    (env : Except String (Option Nat)) (h : ∀ v, env ≠ Except.ok (some v)) :
    (run_view_count_tick now s env).1.viewers = s.viewers := by
  simp only [run_view_count_tick, get_view_count, get_active_displays]
  cases htok : get_user_token
      { s with view_displays := s.view_displays.filter (fun d => now - d.last_alive < 5) } with
  | none => split <;> simp [htok]
  | some t =>
    cases env with
    | error e => split <;> simp [htok]
    | ok v =>
      cases v with
      | none => split <;> simp [htok]
      | some v => exact absurd rfl (h v)

/-- C8: a failed poll (request error, or an offline stream reporting no
count) leaves the cached viewer count at its previous value; the cache is
overwritten only when the poll yields a count; reading the cache is a plain
field read returning the last cached value, 0 in the initial state; and a run
of scheduler events none of whose ticks yields a successful count leaves the
cached value unchanged. -/
theorem viewer_cache_failure_keeps_previous :
    (∀ (now : Nat) (s : PluginState) (e : String),
      (run_view_count_tick now s (Except.error e)).1.viewers = s.viewers) ∧
    (∀ (now : Nat) (s : PluginState),
      (run_view_count_tick now s (Except.ok none)).1.viewers = s.viewers) ∧
    (∀ (now : Nat) (s : PluginState) (env : Except String (Option Nat)),
      (run_view_count_tick now s env).1.viewers = s.viewers ∨
        ∃ v, env = Except.ok (some v) ∧ (run_view_count_tick now s env).1.viewers = v) ∧
    current_view_count PluginState.initial = 0 ∧
    (∀ (s : PluginState) (events : List SchedulerEvent),
      (∀ now env, SchedulerEvent.tick now env ∈ events → ∀ v, env ≠ Except.ok (some v)) →
      current_view_count (scheduler_run s events).1 = current_view_count s) := by
  refine ⟨?_, ?_, ?_, rfl, ?_⟩
  · intro now s e
    exact run_view_count_tick_viewers_unchanged now s _ (fun v hv => by cases hv)
  · intro now s
    exact run_view_count_tick_viewers_unchanged now s _ (fun v hv => by cases hv)
  · intro now s env
    cases env with
    | error e =>
      exact Or.inl (run_view_count_tick_viewers_unchanged now s _ (fun v hv => by cases hv))
    | ok v =>
      cases v with
      | none =>
        exact Or.inl (run_view_count_tick_viewers_unchanged now s _ (fun v hv => by cases hv))
      | some v =>
        by_cases hact :
            0 < (s.view_displays.filter (fun d => now - d.last_alive < 5)).length
        · cases htok : get_user_token
              { s with view_displays :=
                  s.view_displays.filter (fun d => now - d.last_alive < 5) } with
          | none =>
            refine Or.inl ?_
            simp [run_view_count_tick, get_view_count, get_active_displays, hact, htok]
          | some t =>
            refine Or.inr ⟨v, rfl, ?_⟩
            simp [run_view_count_tick, get_view_count, get_active_displays, hact, htok]
        · refine Or.inl ?_
          simp [run_view_count_tick, get_view_count, get_active_displays, hact]
  · intro s events
    induction events generalizing s with
    | nil => intro h; simp [scheduler_run]
    | cons e rest ih =>
      intro h
      cases e with
      | tick now env =>
        have h1 : ∀ v, env ≠ Except.ok (some v) :=
          h now env (List.mem_cons_self _ _)
        have ht := run_view_count_tick_viewers_unchanged now s env h1
        have hr := ih (run_view_count_tick now s env).1
          (fun n e' hm v => h n e' (List.mem_cons_of_mem _ hm) v)
        simp only [scheduler_run, current_view_count] at hr ⊢
        rw [hr, ht]
      | refresh now c =>
        have hr := ih { s with view_displays := push_active_display now c s.view_displays }
          (fun n e' hm v => h n e' (List.mem_cons_of_mem _ hm) v)
        simpa [scheduler_run, current_view_count] using hr

/-- Witness for C8: a concrete failed poll from the authenticated state with a
stale cache of 0 leaves the cache at 0, and a no-success run from the initial
state reads back 0. -/
theorem viewer_cache_failure_keeps_previous_witness :
    (run_view_count_tick 0 authState (Except.error "request failed")).1.viewers =
        authState.viewers ∧
    current_view_count
        (scheduler_run PluginState.initial
          [SchedulerEvent.tick 0 (Except.error "request failed")]).1 =
      current_view_count PluginState.initial := by
  refine ⟨viewer_cache_failure_keeps_previous.1 0 authState "request failed", ?_⟩
  exact viewer_cache_failure_keeps_previous.2.2.2.2 PluginState.initial
    [SchedulerEvent.tick 0 (Except.error "request failed")]
    (by intro now env hm v; simp at hm; simp [hm])

/-- C9: when authenticated and the settings fetch succeeds, each chat-mode
toggle performs exactly one GET of the current chat settings followed by
exactly one PATCH whose body sets only the toggled field, to the negation of
the fetched value, with every other settings field unset (hence left
unchanged by the platform). -/
theorem toggle_read_modify_write (s : PluginState) (t : UserToken)
    (cs : ChatSettings) (env : PlatformEnv)
    (ha : s.access_state = AccessState.Authenticated t)
    (hs : env.settings = Except.ok cs) :
    (toggle_sub_only s env).1 =
      [PlatformOp.getChatSettings t.user_id,
        PlatformOp.updateChatSettings t.user_id t.user_id
          ⟨none, none, none, none, none, none, none, some (!cs.subscriber_mode), none⟩] ∧
    (toggle_slow_mode s env).1 =
      [PlatformOp.getChatSettings t.user_id,
        PlatformOp.updateChatSettings t.user_id t.user_id
          ⟨none, none, none, none, none, some (!cs.slow_mode), none, none, none⟩] ∧
    (toggle_emote_only s env).1 =
      [PlatformOp.getChatSettings t.user_id,
        PlatformOp.updateChatSettings t.user_id t.user_id
          ⟨some (!cs.emote_mode), none, none, none, none, none, none, none, none⟩] ∧
    (toggle_follower_only s env).1 =
      [PlatformOp.getChatSettings t.user_id,
        PlatformOp.updateChatSettings t.user_id t.user_id
          ⟨none, some (!cs.follower_mode), none, none, none, none, none, none, none⟩] := by
  have htok : get_user_token s = some t := by simp [get_user_token, ha]
  cases hp : env.patch <;>
    simp [toggle_sub_only, toggle_slow_mode, toggle_emote_only, toggle_follower_only,
      get_chat_settings, htok, hs, hp, UpdateChatSettingsBody.default]

/-- Witness for C9: toggling subscriber-only mode from concrete settings with
subscriber mode off issues the GET and a PATCH carrying only
subscriber_mode = some true. -/
theorem toggle_read_modify_write_witness :
    (toggle_sub_only authState okEnv).1 =
      [PlatformOp.getChatSettings "uid",
        PlatformOp.updateChatSettings "uid" "uid"
          ⟨none, none, none, none, none, none, none, some true, none⟩] := by
  have h := toggle_read_modify_write authState sampleToken sampleSettings okEnv rfl rfl
  simpa [sampleToken, sampleSettings] using h.1

/-- C6: recognized actions decoded with their optional fields absent get the
documented defaults at dispatch: an AdBreak without a length issues one
start-commercial call with the shortest allowed duration (30 seconds), a
Marker without text creates a marker with the empty string, and a SendMessage
without a message is a valid decode that dispatch treats as a no-op (no
platform call, no error). -/
theorem dispatch_optional_defaults (s : PluginState) (t : UserToken)
    (env : PlatformEnv) (ha : s.access_state = AccessState.Authenticated t) :
    Action.from_action "ad_break" (Json.obj []) =
      some (Except.ok (Action.AdBreak ⟨none⟩)) ∧
    on_tile_clicked s env "ad_break" (Json.obj []) =
      [PlatformOp.startCommercial t.user_id CommercialLength.Length30] ∧
    Action.from_action "marker" (Json.obj []) =
      some (Except.ok (Action.Marker ⟨none⟩)) ∧
    on_tile_clicked s env "marker" (Json.obj []) =
      [PlatformOp.createStreamMarker t.user_id ""] ∧
    Action.from_action "send_message" (Json.obj []) =
      some (Except.ok (Action.SendMessage ⟨none⟩)) ∧
    on_tile_clicked s env "send_message" (Json.obj []) = [] := by
  have htok : get_user_token s = some t := by simp [get_user_token, ha]
  refine ⟨rfl, ?_, rfl, ?_, rfl, ?_⟩ <;>
    simp [on_tile_clicked, Action.from_action, decodeAdBreakProperties,
      decodeMarkerProperties, decodeSendMessageProperties, decodeOptCommercialLength,
      decodeOptString, getField, Except.map, start_comercial, create_marker, htok]

/-- Witness for C6 at the concrete authenticated state. -/
theorem dispatch_optional_defaults_witness :
    on_tile_clicked authState okEnv "ad_break" (Json.obj []) =
      [PlatformOp.startCommercial "uid" CommercialLength.Length30] ∧
    on_tile_clicked authState okEnv "send_message" (Json.obj []) = [] := by
  have h := dispatch_optional_defaults authState sampleToken okEnv rfl
  exact ⟨h.2.1, h.2.2.2.2.2⟩

/-- C10: the deep-link handler persists credentials via set_properties only
after a successful authentication; when the fragment is absent, fails to
parse, or authentication fails, no persistence call is made (stored
properties are left untouched).  On success the persisted blob carries the
fragment's access token and its colon-separated scopes. -/
theorem deep_link_persists_only_on_success (s : PluginState)
    (parse : String → Option DeepLinkFragment)
    (validated : Except AuthError UserToken) :
    (on_deep_link s none parse validated).2.2 = [] ∧
    (on_deep_link s none parse validated).1 = s ∧
    (∀ raw, parse raw = none →
      (on_deep_link s (some raw) parse validated).2.2 = [] ∧
      (on_deep_link s (some raw) parse validated).1 = s) ∧
    (∀ raw f e, parse raw = some f → validated = Except.error e →
      (on_deep_link s (some raw) parse validated).2.2 = []) ∧
    (∀ raw f u, parse raw = some f → validated = Except.ok u →
      (on_deep_link s (some raw) parse validated).2.2 =
        [HostEffect.set_properties (some (f.access_token, f.scope.splitOn ":"))]) := by
  refine ⟨rfl, rfl, ?_, ?_, ?_⟩
  · intro raw hp
    constructor <;> simp [on_deep_link, hp]
  · intro raw f e hp hv
    simp [on_deep_link, hp, hv, attempt_auth]
  · intro raw f u hp hv
    simp [on_deep_link, hp, hv, attempt_auth]

/-- Witness for C10: a concrete failing validation persists nothing, and a
concrete successful one persists the fragment's token and scopes. -/
theorem deep_link_persists_only_on_success_witness :
    (on_deep_link PluginState.initial (some "frag")
        (fun _ => some ⟨"tok", "chat:read"⟩)
        (Except.error AuthError.failed_to_create_user_token)).2.2 = [] ∧
    (on_deep_link PluginState.initial (some "frag")
        (fun _ => some ⟨"tok", "chat:read"⟩) (Except.ok sampleToken)).2.2 =
      [HostEffect.set_properties (some ("tok", "chat:read".splitOn ":"))] := by
  constructor
  · exact (deep_link_persists_only_on_success PluginState.initial
      (fun _ => some ⟨"tok", "chat:read"⟩)
      (Except.error AuthError.failed_to_create_user_token)).2.2.2.1 "frag"
      ⟨"tok", "chat:read"⟩ AuthError.failed_to_create_user_token rfl rfl
  · exact (deep_link_persists_only_on_success PluginState.initial
      (fun _ => some ⟨"tok", "chat:read"⟩)
      (Except.ok sampleToken)).2.2.2.2 "frag" ⟨"tok", "chat:read"⟩ sampleToken rfl rfl

/-- A concrete 1200-character message (1200 repetitions of a 1-byte
character). -/
def msg1200 : String := String.mk (List.replicate 1200 'a')

/-- C1 (code-bug evidence): dispatching a SendMessage action whose message has
1200 characters issues a single unchunked chat send carrying the whole
message, because `on_tile_clicked` calls `send_chat_message` rather than
`send_chat_message_chunked`; the chunked helper itself, which the dispatcher
never invokes, would have produced the three ordered chunks of 500, 500 and
200 characters that the claim describes. -/
theorem send_message_dispatch_is_not_chunked :
    500 < msg1200.length ∧
    on_tile_clicked authState okEnv "send_message"
        (Json.obj [("message", Json.str msg1200)]) =
      [PlatformOp.sendChatMessage "uid" "uid" msg1200] ∧
    (send_chat_message_chunked authState okEnv msg1200).1 =
      [PlatformOp.sendChatMessage "uid" "uid" (String.mk (List.replicate 500 'a')),
        PlatformOp.sendChatMessage "uid" "uid" (String.mk (List.replicate 500 'a')),
        PlatformOp.sendChatMessage "uid" "uid" (String.mk (List.replicate 200 'a'))] := by
  refine ⟨?_, ?_, ?_⟩
  · show 500 < (List.replicate 1200 'a').length
    rw [List.length_replicate]
    norm_num
  · rfl
  · have hsend : ∀ m : String,
        send_chat_message authState okEnv m =
          ([PlatformOp.sendChatMessage "uid" "uid" m], Except.ok ()) := fun m => rfl
    have hnil : send_chunks authState okEnv [] = ([], Except.ok ()) := by
      rw [send_chunks.eq_def]
      simp
    have hstep : ∀ n : Nat, 500 ≤ n →
        send_chunks authState okEnv (List.replicate n 'a') =
          (PlatformOp.sendChatMessage "uid" "uid" (String.mk (List.replicate 500 'a')) ::
              (send_chunks authState okEnv (List.replicate (n - 500) 'a')).1,
            (send_chunks authState okEnv (List.replicate (n - 500) 'a')).2) := by
      intro n hn
      rw [send_chunks.eq_def]
      rw [List.take_replicate, List.drop_replicate, Nat.min_eq_left hn]
      rw [dif_neg (by simp)]
      simp [hsend]
    have hlast : send_chunks authState okEnv (List.replicate 200 'a') =
        ([PlatformOp.sendChatMessage "uid" "uid" (String.mk (List.replicate 200 'a'))],
          Except.ok ()) := by
      rw [send_chunks.eq_def]
      rw [List.take_replicate, List.drop_replicate,
        Nat.min_eq_right (by norm_num : (200 : Nat) ≤ 500),
        Nat.sub_eq_zero_of_le (by norm_num : (200 : Nat) ≤ 500)]
      rw [dif_neg (by simp)]
      simp [hsend, hnil]
    have hsum : (msg1200.data.map Char.utf8Size).sum = 1200 := by
      show ((List.replicate 1200 'a').map Char.utf8Size).sum = 1200
      rw [List.map_replicate]
      rw [show Char.utf8Size 'a' = 1 from rfl]
      rw [List.sum_replicate]
      simp
    simp only [send_chat_message_chunked]
    rw [hsum]
    rw [if_neg (by norm_num : ¬(1200 : Nat) < 500)]
    show (send_chunks authState okEnv (List.replicate 1200 'a')).1 = _
    rw [hstep 1200 (by norm_num)]
    rw [show (1200 : Nat) - 500 = 700 from rfl]
    rw [hstep 700 (by norm_num)]
    rw [show (700 : Nat) - 500 = 200 from rfl]
    rw [hlast]

end TwitchPlugin
